import Mathlib

/-!
Shallow embedding of `socksies.py`, a CLI tool that manages SSH SOCKS proxy
tunnels defined in a YAML configuration file.

The embedding models the observable behaviour of each command as a pure
function from its inputs (the parsed configuration source, the exit codes the
external tools `pgrep` / `pkill` / `ssh` would return, and the home directory
used for tilde expansion) to the sequence of observable events (printed lines,
external-tool invocations) together with an optional uncaught Python error.
-/

namespace Socksies

/-- Raw data of one proxy entry in the YAML file: each of the three fields may
be absent (`none`). Mirrors the sub-mapping read by `parse_proxy_config`
(socksies.py lines 47-51). -/
structure ProxyData where
  host : Option String
  port : Option String
  identity_file : Option String
deriving DecidableEq, Repr

/-- A parsed proxy record, mirroring the dict built in `parse_proxy_config`
(socksies.py lines 53-60). Ports are modelled as the strings they render to
in the f-string patterns and in `str(proxy_port)`. -/
structure Proxy where
  name : String
  host : String
  port : String
  identity_file : String
deriving DecidableEq, Repr

/-- Python errors that the script can raise and never catches. -/
inductive PyError where
  /-- `open(CONFIG_FILE)` raised `FileNotFoundError`. -/
  | fileNotFound
  /-- `yaml.safe_load` raised a `YAMLError`. -/
  | yamlError
  /-- a `str` value was subscripted with a string key (`TypeError`). -/
  | typeError
deriving DecidableEq, Repr

/-- The state of the configuration file as seen by `open` + `yaml.safe_load`
(socksies.py lines 43-44): missing file, unparsable content, or a parsed
top-level mapping given as a key-ordered association list. -/
inductive ConfigSource where
  | missing
  | invalid
  | ok (entries : List (String × ProxyData))
deriving DecidableEq, Repr

/-- Observable events of one command invocation. -/
inductive Event where
  /-- a line written to stdout by `print`. -/
  | printLine (s : String)
  /-- `subprocess.run(["pgrep", "-af", pattern], ...)` (line 116-117). -/
  | pgrepCall (pattern : String)
  /-- `subprocess.run(["pkill", "-f", pattern], check=True)` (line 247-251). -/
  | pkillCall (pattern : String)
  /-- `subprocess.run(connect_cmd, check=True)` (line 189). -/
  | sshCall (argv : List String)
  /-- the shelled-out verbose diagnostic pipeline (lines 127-135). -/
  | verboseDiag
deriving DecidableEq, Repr

/-- Result of one command: the events emitted before the command returned or
died, and the uncaught Python error if it died. -/
abbrev CmdResult := List Event × Option PyError

/-- Models `os.path.expanduser`: a path whose first character is a tilde has
the tilde replaced by the home directory; any other path is returned
unchanged. -/
def expanduser (home : String) (path : String) : String :=
  match path.data with
  | '~' :: rest => home ++ String.mk rest
  | _ => path

/-- The loop body of `parse_proxy_config` (socksies.py lines 46-62): one
record per top-level key, in file order, with `host`/`port` defaulting to
the sentinel `--` and `identity_file` defaulting to the empty string. -/
def build_proxies (entries : List (String × ProxyData)) : List Proxy :=
  entries.map fun e =>
    { name := e.1
      host := e.2.host.getD ("--")
      port := e.2.port.getD ("--")
      identity_file := e.2.identity_file.getD ("") }

/-- `parse_proxy_config` (socksies.py lines 38-62): opens and parses the
config file, then builds the proxy records. A missing file or invalid YAML
raises; nothing in the function catches. -/
def parse_proxy_config (src : ConfigSource) : Except PyError (List Proxy) :=
  match src with
  | .missing => .error .fileNotFound
  | .invalid => .error .yamlError
  | .ok entries => .ok (build_proxies entries)

/-- The search loop of `_proxy_search` over an already-parsed list
(socksies.py lines 32-35): first record whose name equals the query, else
`None`. -/
def proxy_search_list (proxies : List Proxy) (proxy_name : String) : Option Proxy :=
  proxies.find? fun p => p.name == proxy_name

/-- `_proxy_search` (socksies.py lines 26-35): re-parses the config, then
scans for the named proxy. -/
def _proxy_search (src : ConfigSource) (proxy_name : String) :
    Except PyError (Option Proxy) :=
  match parse_proxy_config src with
  | .error e => .error e
  | .ok proxies => .ok (proxy_search_list proxies proxy_name)

/-- The status-matching pattern built in `proxy_status` (socksies.py
line 113): `ssh -D {port} -i {identity} -q -C -f -N {host}` with
tilde-expansion applied to the identity file (line 109). -/
def statusPattern (home : String) (p : Proxy) : String :=
  "ssh -D " ++ p.port ++ " -i " ++ expanduser home p.identity_file
    ++ " -q -C -f -N " ++ p.host

/-- The kill pattern built in `_disconnect_single_proxy` (socksies.py
line 244): `ssh -D {port} -N {host} -q -C -f -i {identity}` with
tilde-expansion applied to the identity file (line 241). -/
def killPattern (home : String) (p : Proxy) : String :=
  "ssh -D " ++ p.port ++ " -N " ++ p.host ++ " -q -C -f -i "
    ++ expanduser home p.identity_file

/-- The argument vector `connect_cmd` built in `proxy_connect` (socksies.py
lines 173-182). -/
def connect_cmd (home : String) (p : Proxy) : List String :=
  ["ssh", "-D", p.port, "-i", expanduser home p.identity_file,
   "-q", "-C", "-f", "-N", p.host]

/-- Models `" ".join(...)` (socksies.py line 185). -/
def joinArgs (args : List String) : String :=
  String.intercalate (" ") args

/-- The inline per-proxy check of `proxy_status` (socksies.py lines 115-121):
run the search tool on the status pattern and report running exactly when its
exit status is zero. `pgrepRet` gives the exit status `pgrep -af <pattern>`
returns in the ambient process table. -/
def is_running (pgrepRet : String → Int) (home : String) (p : Proxy) : Bool :=
  pgrepRet (statusPattern home p) == 0

/-- Models the Python subscript `value[key]` where `value` is a `str`: Python
raises `TypeError: string indices must be integers`. This is what line 140 of
socksies.py does, since the elements of `connected` are names (strings,
appended at line 121), not dicts. -/
def strSubscript (s : String) (key : String) : Except PyError String :=
  .error .typeError

/-- One iteration of the printing loop at lines 139-140 of socksies.py:
evaluate the f-string `- {proxy['name']} ({proxy['host']}:{proxy['port']})`
where `proxy` is an element of `connected`. -/
def connectedLine (entry : String) : Except PyError String := do
  let n ← strSubscript entry ("name")
  let h ← strSubscript entry ("host")
  let pt ← strSubscript entry ("port")
  pure ("- " ++ n ++ " (" ++ h ++ ":" ++ pt ++ ")")

/-- The printing loop at lines 139-140 of socksies.py: emit one line per
element of `connected`, stopping with the raised error if an iteration
raises. -/
def connectedLines : List String → List Event × Option PyError
  | [] => ([], none)
  | entry :: rest =>
    match connectedLine entry with
    | .error e => ([], some e)
    | .ok line =>
      let r := connectedLines rest
      (Event.printLine line :: r.1, r.2)

/-- `proxy_status` (socksies.py lines 96-142): parse the config, run one
`pgrep -af` per proxy collecting the names whose search succeeded, then
either run the verbose diagnostic, print the connected list, or print that
nothing is connected. -/
def proxy_status (home : String) (pgrepRet : String → Int) (verbose : Bool)
    (src : ConfigSource) : CmdResult :=
  match parse_proxy_config src with
  | .error e => ([], some e)
  | .ok proxies =>
    let pgrepEvents := proxies.map fun p => Event.pgrepCall (statusPattern home p)
    let connected := (proxies.filter (is_running pgrepRet home)).map Proxy.name
    if connected.isEmpty = false then
      if verbose then
        (pgrepEvents
          ++ [Event.printLine ("Running verbose status command:"), Event.verboseDiag],
         none)
      else
        let r := connectedLines connected
        (pgrepEvents ++ [Event.printLine ("Currently connected proxies:")] ++ r.1, r.2)
    else
      (pgrepEvents ++ [Event.printLine ("No proxies appear to be connected.")], none)

/-- `proxy_list` (socksies.py lines 65-73): the header is printed before the
config is parsed, so it is emitted even when parsing raises. -/
def proxy_list (src : ConfigSource) : CmdResult :=
  match parse_proxy_config src with
  | .error e => ([Event.printLine ("Listing configured Proxies:")], some e)
  | .ok proxies =>
    ([Event.printLine ("Listing configured Proxies:")]
      ++ proxies.map fun p =>
          Event.printLine ("- " ++ p.name ++ " (" ++ p.host ++ ":" ++ p.port ++ ")"),
     none)

/-- `proxy_info` (socksies.py lines 76-93). `cfg` is the value of
`CONFIG_FILE` interpolated into the not-found message. -/
def proxy_info (cfg : String) (src : ConfigSource) (proxy_name : String) : CmdResult :=
  match _proxy_search src proxy_name with
  | .error e => ([], some e)
  | .ok none =>
    ([Event.printLine ("Error: Proxy '" ++ proxy_name ++ "' not found in " ++ cfg ++ ".")],
     none)
  | .ok (some p) =>
    ([Event.printLine ("Proxy: " ++ p.name),
      Event.printLine ("  Host: " ++ p.host),
      Event.printLine ("  Port: " ++ p.port),
      Event.printLine ("  Identity File: " ++ p.identity_file)], none)

/-- `proxy_connect` (socksies.py lines 145-192). `sshRet` gives the exit
status of the external ssh invocation on a given argument vector. The
validation at line 165 uses Python truthiness: only an empty string is
rejected. -/
def proxy_connect (cfg : String) (home : String) (sshRet : List String → Int)
    (src : ConfigSource) (proxy_name : String) : CmdResult :=
  match _proxy_search src proxy_name with
  | .error e => ([], some e)
  | .ok none =>
    ([Event.printLine ("Error: Proxy '" ++ proxy_name ++ "' not found in " ++ cfg ++ ".")],
     none)
  | .ok (some p) =>
    if p.host.isEmpty || p.port.isEmpty || p.identity_file.isEmpty then
      ([Event.printLine ("Error: Incomplete config for '" ++ proxy_name
          ++ "'. Check host, port, and identity_file.")], none)
    else
      let cmd := connect_cmd home p
      let pre := [Event.printLine ("Establishing SOCKS proxy with: " ++ p.name
                    ++ " (" ++ p.host ++ ":" ++ p.port ++ ")"),
                  Event.printLine ("SSH command: " ++ joinArgs cmd),
                  Event.sshCall cmd]
      if sshRet cmd == 0 then
        (pre ++ [Event.printLine ("Connection established to " ++ p.host
                   ++ " on SOCKS port " ++ p.port ++ ".")], none)
      else
        (pre ++ [Event.printLine ("Error: Failed to connect to '" ++ proxy_name
                   ++ "' (" ++ p.host ++ ":" ++ p.port ++ ").")], none)

/-- `_disconnect_single_proxy` (socksies.py lines 232-256): build the kill
pattern, run `pkill -f` on it, and print a message and return `True` exactly
when pkill exited zero; `CalledProcessError` is caught and mapped to `False`
with no output. `pkillRet` gives pkill's exit status per pattern. -/
def _disconnect_single_proxy (home : String) (pkillRet : String → Int)
    (p : Proxy) : List Event × Bool :=
  let pat := killPattern home p
  if pkillRet pat == 0 then
    ([Event.pkillCall pat,
      Event.printLine ("Disconnected proxy: " ++ p.name
        ++ " (" ++ p.host ++ ":" ++ p.port ++ ")")], true)
  else
    ([Event.pkillCall pat], false)

/-- The `all` loop of `proxy_disconnect` (socksies.py lines 204-221): one
kill-attempt per configured proxy in order, accumulating the events and
whether any attempt succeeded. -/
def disconnect_all_loop (home : String) (pkillRet : String → Int) :
    List Proxy → List Event × Bool
  | [] => ([], false)
  | p :: rest =>
    let r := _disconnect_single_proxy home pkillRet p
    let rs := disconnect_all_loop home pkillRet rest
    (r.1 ++ rs.1, r.2 || rs.2)

/-- `proxy_disconnect` (socksies.py lines 195-229). For the literal name
`all`, loop over every configured proxy and print the no-active message when
no attempt succeeded; otherwise look the name up and run a single
kill-attempt whose boolean result is discarded. -/
def proxy_disconnect (cfg : String) (home : String) (pkillRet : String → Int)
    (src : ConfigSource) (proxy_name : String) : CmdResult :=
  if proxy_name == "all" then
    match parse_proxy_config src with
    | .error e => ([], some e)
    | .ok proxies =>
      let r := disconnect_all_loop home pkillRet proxies
      let evs := Event.printLine ("Disconnecting from all configured proxies.") :: r.1
      if r.2 then (evs, none)
      else (evs ++ [Event.printLine ("No active proxies were found to disconnect.")], none)
  else
    match _proxy_search src proxy_name with
    | .error e => ([], some e)
    | .ok none =>
      ([Event.printLine ("Error: Proxy '" ++ proxy_name ++ "' not found in " ++ cfg ++ ".")],
       none)
    | .ok (some p) => ((_disconnect_single_proxy home pkillRet p).1, none)

/-- Recognizes the pgrep invocation events. -/
def isPgrepCall : Event → Bool
  | .pgrepCall _ => true
  | _ => false

/-- Recognizes the pkill invocation events. -/
def isPkillCall : Event → Bool
  | .pkillCall _ => true
  | _ => false

/-- The status pattern of line 113 is exactly the space-join of the argument
vector of lines 173-182: both interleave the same tokens in the same order. -/
lemma statusPattern_eq_joinArgs (home : String) (p : Proxy) :
    statusPattern home p = joinArgs (connect_cmd home p) := by
  have hj : joinArgs (connect_cmd home p) =
      "ssh" ++ " " ++ "-D" ++ " " ++ p.port ++ " " ++ "-i" ++ " "
        ++ expanduser home p.identity_file ++ " " ++ "-q" ++ " " ++ "-C" ++ " "
        ++ "-f" ++ " " ++ "-N" ++ " " ++ p.host := rfl
  rw [hj]
  apply String.ext
  simp only [statusPattern, String.data_append, List.append_assoc]
  rfl

/-- The status pattern and the kill pattern differ for every proxy record:
after the common prefix `ssh -D {port} -` the former continues with `i`, the
latter with `N`. -/
lemma statusPattern_ne_killPattern (home : String) (p : Proxy) :
    statusPattern home p ≠ killPattern home p := by
  intro h
  have hd := congrArg String.data h
  simp only [statusPattern, killPattern, String.data_append, List.append_assoc] at hd
  have h1 := List.append_cancel_left hd
  have h2 := List.append_cancel_left h1
  simp at h2

/-- The two patterns built from the same proxy record have the same length:
they contain the same tokens, merely reordered. -/
lemma killPattern_data_length (home : String) (p : Proxy) :
    (killPattern home p).data.length = (statusPattern home p).data.length := by
  simp only [statusPattern, killPattern, String.data_append, List.append_assoc,
    List.length_append, List.length_cons, List.length_nil]
  omega

end Socksies

namespace Socksies

/-- C1: the status-matching pattern of `proxy_status` is exactly
`ssh -D {port} -i {identity} -q -C -f -N {host}` (tilde-expanded identity) and
the kill pattern of `_disconnect_single_proxy` is exactly the differently
ordered `ssh -D {port} -N {host} -q -C -f -i {identity}`; for every proxy
with a non-empty identity file the two are unequal as strings, and the status
pattern — but not the kill pattern — is a contiguous substring of the
space-joined argument vector `proxy_connect` executes. -/
theorem C1_patterns (home : String) (p : Proxy) (hid : p.identity_file ≠ "") :
    statusPattern home p
        = "ssh -D " ++ p.port ++ " -i " ++ expanduser home p.identity_file
            ++ " -q -C -f -N " ++ p.host
    ∧ killPattern home p
        = "ssh -D " ++ p.port ++ " -N " ++ p.host ++ " -q -C -f -i "
            ++ expanduser home p.identity_file
    ∧ statusPattern home p ≠ killPattern home p
    ∧ (statusPattern home p).data <:+: (joinArgs (connect_cmd home p)).data
    ∧ ¬ (killPattern home p).data <:+: (joinArgs (connect_cmd home p)).data := by
  refine ⟨rfl, rfl, statusPattern_ne_killPattern home p, ?_, ?_⟩
  · rw [← statusPattern_eq_joinArgs home p]
  · intro hinf
    have hlen : (killPattern home p).data.length = (joinArgs (connect_cmd home p)).data.length := by
      rw [← statusPattern_eq_joinArgs home p]
      exact killPattern_data_length home p
    have heq : killPattern home p = joinArgs (connect_cmd home p) :=
      String.ext (hinf.sublist.eq_of_length hlen)
    exact statusPattern_ne_killPattern home p
      ((statusPattern_eq_joinArgs home p).trans heq.symm)

/-- Witness for C1 at a concrete proxy record with a non-empty identity
file. -/
theorem C1_patterns_witness :
    (Proxy.mk ("proxy1") ("172.31.0.51") ("9051") ("~/.ssh/private_key")).identity_file ≠ ""
    ∧ statusPattern ("/home/op") (Proxy.mk ("proxy1") ("172.31.0.51") ("9051") ("~/.ssh/private_key"))
        ≠ killPattern ("/home/op") (Proxy.mk ("proxy1") ("172.31.0.51") ("9051") ("~/.ssh/private_key")) :=
  ⟨by decide,
   (C1_patterns ("/home/op")
      (Proxy.mk ("proxy1") ("172.31.0.51") ("9051") ("~/.ssh/private_key"))
      (by decide)).2.2.1⟩

/-- C2 counterexample: the claim says a missing or unparsable configuration
file is caught at the command level and turned into a printed message, with
nothing propagating to an unhandled top-level fault. On the code, running the
`list` command with a missing configuration file ends with the uncaught
`FileNotFoundError` (and with invalid YAML, the uncaught `YAMLError`): the
second component of the result is the error that escaped the command. -/
theorem C2_counterexample :
    (proxy_list ConfigSource.missing).2 = some PyError.fileNotFound
    ∧ (proxy_list ConfigSource.invalid).2 = some PyError.yamlError :=
  ⟨rfl, rfl⟩

/-- C2 (amended): when the configuration file does not exist, `open` raises a
file-not-found error; when its content is not valid YAML, the loader raises a
parse error; no command installs a handler, so every one of the five commands
lets the error propagate uncaught out of the command. -/
theorem C2_config_errors_uncaught (cfg home : String) (pg : String → Int)
    (ss : List String → Int) (pk : String → Int) (v : Bool) (name : String) :
    (proxy_list ConfigSource.missing).2 = some PyError.fileNotFound
    ∧ (proxy_list ConfigSource.invalid).2 = some PyError.yamlError
    ∧ (proxy_status home pg v ConfigSource.missing).2 = some PyError.fileNotFound
    ∧ (proxy_status home pg v ConfigSource.invalid).2 = some PyError.yamlError
    ∧ (proxy_info cfg ConfigSource.missing name).2 = some PyError.fileNotFound
    ∧ (proxy_info cfg ConfigSource.invalid name).2 = some PyError.yamlError
    ∧ (proxy_connect cfg home ss ConfigSource.missing name).2 = some PyError.fileNotFound
    ∧ (proxy_connect cfg home ss ConfigSource.invalid name).2 = some PyError.yamlError
    ∧ (proxy_disconnect cfg home pk ConfigSource.missing name).2 = some PyError.fileNotFound
    ∧ (proxy_disconnect cfg home pk ConfigSource.invalid name).2 = some PyError.yamlError := by
  refine ⟨rfl, rfl, rfl, rfl, rfl, rfl, rfl, rfl, ?_, ?_⟩ <;>
    by_cases h : name == "all" <;>
      simp [proxy_disconnect, h, _proxy_search, parse_proxy_config]

/-- C3 counterexample: the claim says a proxy whose host is the sentinel `--`
is rejected at connect time with `IncompleteConfig` and the external ssh
binary is not invoked. On the code, the validation at line 165 only tests
Python truthiness, the string `--` is truthy, and ssh is invoked with `--` as
the destination host. -/
theorem C3_counterexample :
    Event.sshCall (["ssh", "-D", "9051", "-i", "key1", "-q", "-C", "-f", "-N", "--"])
      ∈ (proxy_connect ("proxy-config.yml") ("/home/op") (fun _ => 0)
          (ConfigSource.ok [(("proxy1"), ProxyData.mk (some ("--")) (some ("9051")) (some ("key1")))])
          ("proxy1")).1 := by
  decide

/-- C3 (amended): `proxy_connect` fails with the incomplete-config message,
without invoking ssh, exactly when one of host, port, identity_file is the
empty string; a field holding the sentinel `--` passes the truthiness test at
line 165, and ssh is then invoked. -/
theorem C3_connect_validation (cfg home : String) (sshRet : List String → Int)
    (entries : List (String × ProxyData)) (name : String) (p : Proxy)
    (hfind : proxy_search_list (build_proxies entries) name = some p) :
    ((p.host = "" ∨ p.port = "" ∨ p.identity_file = "") →
      proxy_connect cfg home sshRet (ConfigSource.ok entries) name
        = ([Event.printLine ("Error: Incomplete config for '" ++ name
            ++ "'. Check host, port, and identity_file.")], none))
    ∧ (p.host ≠ "" → p.port ≠ "" → p.identity_file ≠ "" →
      Event.sshCall (connect_cmd home p)
        ∈ (proxy_connect cfg home sshRet (ConfigSource.ok entries) name).1) := by
  constructor
  · intro hempty
    have : p.host.isEmpty || p.port.isEmpty || p.identity_file.isEmpty := by
      rcases hempty with h | h | h <;> simp [h, String.isEmpty_iff]
    simp [proxy_connect, _proxy_search, parse_proxy_config, hfind, this]
  · intro h1 h2 h3
    have e1 : p.host.isEmpty = false := by
      rw [Bool.eq_false_iff]
      intro hc
      exact h1 ((String.isEmpty_iff p.host).mp hc)
    have e2 : p.port.isEmpty = false := by
      rw [Bool.eq_false_iff]
      intro hc
      exact h2 ((String.isEmpty_iff p.port).mp hc)
    have e3 : p.identity_file.isEmpty = false := by
      rw [Bool.eq_false_iff]
      intro hc
      exact h3 ((String.isEmpty_iff p.identity_file).mp hc)
    simp only [proxy_connect, _proxy_search, parse_proxy_config, hfind, e1, e2, e3,
      Bool.or_self, Bool.false_or, Bool.false_eq_true, if_false]
    by_cases hr : sshRet (connect_cmd home p) == 0 <;> simp [hr]

/-- Witness for C3 (amended) at a concrete proxy whose host is the sentinel:
ssh is invoked. -/
theorem C3_connect_validation_witness :
    Event.sshCall (connect_cmd ("/home/op")
        (Proxy.mk ("proxy2") ("--") ("9052") ("key2")))
      ∈ (proxy_connect ("proxy-config.yml") ("/home/op") (fun _ => 1)
          (ConfigSource.ok [(("proxy2"), ProxyData.mk (some ("--")) (some ("9052")) (some ("key2")))])
          ("proxy2")).1 :=
  (C3_connect_validation ("proxy-config.yml") ("/home/op") (fun _ => 1)
      [(("proxy2"), ProxyData.mk (some ("--")) (some ("9052")) (some ("key2")))]
      ("proxy2") (Proxy.mk ("proxy2") ("--") ("9052") ("key2")) rfl).2
    (by decide) (by decide) (by decide)

/-- The names `connected` holds are empty exactly when no configured proxy
passes the `is_running` check. -/
lemma connected_isEmpty_iff (pg : String → Int) (home : String)
    (entries : List (String × ProxyData)) :
    ((((build_proxies entries).filter (is_running pg home)).map Proxy.name).isEmpty = true)
      ↔ (build_proxies entries).any (is_running pg home) = false := by
  simp [List.isEmpty_iff, List.filter_eq_nil_iff, List.any_eq_false]

/-- The pgrep invocation events of `proxy_status` survive a filter on
`isPgrepCall` unchanged. -/
lemma filter_pgrepEvents (home : String) (ps : List Proxy) :
    (ps.map fun p => Event.pgrepCall (statusPattern home p)).filter isPgrepCall
      = ps.map fun p => Event.pgrepCall (statusPattern home p) := by
  rw [List.filter_eq_self]
  intro a ha
  rcases List.mem_map.mp ha with ⟨p, _, rfl⟩
  rfl

/-- C4 counterexample: the claim says verbose `status` bypasses the
per-proxy matching entirely — the diagnostic always runs and no per-proxy
`pgrep` occurs. On the code, with one configured proxy and a process table in
which pgrep never matches, verbose `status` runs the per-proxy pgrep and
never reaches the diagnostic (the diagnostic sits inside `if connected:`). -/
theorem C4_counterexample :
    Event.verboseDiag
        ∉ (proxy_status ("/home/op") (fun _ => 1) true
            (ConfigSource.ok [(("proxy1"), ProxyData.mk (some ("h1")) (some ("9051")) (some ("key1")))])).1
    ∧ Event.pgrepCall ("ssh -D 9051 -i key1 -q -C -f -N h1")
        ∈ (proxy_status ("/home/op") (fun _ => 1) true
            (ConfigSource.ok [(("proxy1"), ProxyData.mk (some ("h1")) (some ("9051")) (some ("key1")))])).1 := by
  decide

/-- C4 (amended): verbose `status` still performs the per-proxy pgrep check,
one invocation per configured proxy in configuration order; the diagnostic
pipeline runs exactly when at least one proxy's check succeeded (in which
case the per-proxy listing is skipped), and when none succeeded the
no-proxies message is printed and the diagnostic does not run. -/
theorem C4_verbose_status (home : String) (pg : String → Int)
    (entries : List (String × ProxyData)) :
    (proxy_status home pg true (ConfigSource.ok entries)).1.filter isPgrepCall
        = (build_proxies entries).map (fun p => Event.pgrepCall (statusPattern home p))
    ∧ proxy_status home pg true (ConfigSource.ok entries)
        = (((build_proxies entries).map fun p => Event.pgrepCall (statusPattern home p))
            ++ (if (build_proxies entries).any (is_running pg home)
                then [Event.printLine ("Running verbose status command:"), Event.verboseDiag]
                else [Event.printLine ("No proxies appear to be connected.")]),
           none) := by
  have hmain : proxy_status home pg true (ConfigSource.ok entries)
      = (((build_proxies entries).map fun p => Event.pgrepCall (statusPattern home p))
          ++ (if (build_proxies entries).any (is_running pg home)
              then [Event.printLine ("Running verbose status command:"), Event.verboseDiag]
              else [Event.printLine ("No proxies appear to be connected.")]),
         none) := by
    by_cases hA : (build_proxies entries).any (is_running pg home)
    · have hne : ((((build_proxies entries).filter (is_running pg home)).map Proxy.name).isEmpty) = false := by
        rw [Bool.eq_false_iff]
        intro hc
        rw [(connected_isEmpty_iff pg home entries).mp hc] at hA
        exact Bool.false_ne_true hA
      simp [proxy_status, parse_proxy_config, hne, hA]
    · have hb : (build_proxies entries).any (is_running pg home) = false :=
        Bool.eq_false_iff.mpr hA
      have he : ((((build_proxies entries).filter (is_running pg home)).map Proxy.name).isEmpty) = true :=
        (connected_isEmpty_iff pg home entries).mpr hb
      simp [proxy_status, parse_proxy_config, he, hb]
  refine ⟨?_, hmain⟩
  rw [hmain]
  rw [List.filter_append, filter_pgrepEvents]
  by_cases hA : (build_proxies entries).any (is_running pg home) <;>
    simp [hA, isPgrepCall]

/-- C5: evaluating `proxy_status` without `--verbose` on a configuration with
one proxy whose pgrep check succeeds. The code appends the proxy's *name* (a
string) to `connected` at line 121 and then subscripts it like a dict at
line 140, so after the pgrep call and the header line the command dies with a
`TypeError` instead of printing the running proxy's name, host and port. -/
theorem C5_status_crash :
    proxy_status ("/home/op") (fun _ => 0) false
        (ConfigSource.ok [(("proxy1"),
          ProxyData.mk (some ("172.31.0.51")) (some ("9051")) (some ("~/.ssh/private_key")))])
      = ([Event.pgrepCall ("ssh -D 9051 -i /home/op/.ssh/private_key -q -C -f -N 172.31.0.51"),
          Event.printLine ("Currently connected proxies:")],
         some PyError.typeError) := by
  decide

/-- C6: the per-proxy running check is true exactly when the external search
tool exits with status zero, and false exactly when it exits nonzero; the
check can produce nothing besides these two booleans, since the code inspects
only `proc.returncode` with `check=False`. -/
theorem C6_is_running_iff (pg : String → Int) (home : String) (p : Proxy) :
    (is_running pg home p = true ↔ pg (statusPattern home p) = 0)
    ∧ (is_running pg home p = false ↔ pg (statusPattern home p) ≠ 0) := by
  constructor <;> simp [is_running]

/-- C7: a proxy record whose identity_file is the empty string makes
`proxy_connect` print the incomplete-config message and return without any
ssh invocation among its events. -/
theorem C7_connect_empty_identity (cfg home : String) (sshRet : List String → Int)
    (entries : List (String × ProxyData)) (name : String) (p : Proxy)
    (hfind : proxy_search_list (build_proxies entries) name = some p)
    (hid : p.identity_file = "") :
    proxy_connect cfg home sshRet (ConfigSource.ok entries) name
      = ([Event.printLine ("Error: Incomplete config for '" ++ name
          ++ "'. Check host, port, and identity_file.")], none)
    ∧ ∀ argv, Event.sshCall argv
        ∉ (proxy_connect cfg home sshRet (ConfigSource.ok entries) name).1 := by
  have hempty : (p.host.isEmpty || p.port.isEmpty || p.identity_file.isEmpty) = true := by
    simp [hid, String.isEmpty_iff]
  have hres : proxy_connect cfg home sshRet (ConfigSource.ok entries) name
      = ([Event.printLine ("Error: Incomplete config for '" ++ name
          ++ "'. Check host, port, and identity_file.")], none) := by
    simp [proxy_connect, _proxy_search, parse_proxy_config, hfind, hempty]
  refine ⟨hres, ?_⟩
  intro argv hmem
  rw [hres] at hmem
  simp at hmem

/-- Witness for C7 at the concrete proxy2 of the sample configuration, whose
identity_file key is absent and therefore defaults to the empty string. -/
theorem C7_connect_empty_identity_witness :
    proxy_connect ("proxy-config.yml") ("/home/op") (fun _ => 0)
        (ConfigSource.ok [(("proxy2"), ProxyData.mk (some ("172.31.0.52")) (some ("9052")) none)])
        ("proxy2")
      = ([Event.printLine ("Error: Incomplete config for 'proxy2'. Check host, port, and identity_file.")],
         none) :=
  (C7_connect_empty_identity ("proxy-config.yml") ("/home/op") (fun _ => 0)
      [(("proxy2"), ProxyData.mk (some ("172.31.0.52")) (some ("9052")) none)]
      ("proxy2") (Proxy.mk ("proxy2") ("172.31.0.52") ("9052") ("")) rfl rfl).1

/-- The success message of a kill-attempt is never the no-active message:
the two strings differ in their first character. -/
lemma disconnected_msg_ne (nm hs pt : String) :
    ("Disconnected proxy: " ++ nm ++ " (" ++ hs ++ ":" ++ pt ++ ")")
      ≠ ("No active proxies were found to disconnect.") := by
  intro hEq
  have h3 : ("Disconnected proxy: " ++ nm ++ " (" ++ hs ++ ":" ++ pt ++ ")").data.head?
      = some ('D') := by
    simp only [String.data_append, List.append_assoc]
    rfl
  rw [hEq] at h3
  exact absurd h3 (by decide)

/-- The boolean the all-loop accumulates is whether some configured proxy's
kill-attempt reported success. -/
lemma disconnect_all_loop_snd (home : String) (pk : String → Int) (ps : List Proxy) :
    (disconnect_all_loop home pk ps).2 = ps.any fun p => pk (killPattern home p) == 0 := by
  induction ps with
  | nil => rfl
  | cons p rest ih =>
    by_cases hr : pk (killPattern home p) == 0 <;>
      simp [disconnect_all_loop, _disconnect_single_proxy, hr, ih]

/-- The pkill events the all-loop emits are exactly one per proxy, in
order. -/
lemma disconnect_all_loop_filter (home : String) (pk : String → Int) (ps : List Proxy) :
    (disconnect_all_loop home pk ps).1.filter isPkillCall
      = ps.map fun p => Event.pkillCall (killPattern home p) := by
  induction ps with
  | nil => rfl
  | cons p rest ih =>
    by_cases hr : pk (killPattern home p) == 0 <;>
      simp [disconnect_all_loop, _disconnect_single_proxy, hr, List.filter_append,
        isPkillCall, ih]

/-- The all-loop never prints the no-active message itself. -/
lemma disconnect_all_loop_no_noactive (home : String) (pk : String → Int) (ps : List Proxy) :
    Event.printLine ("No active proxies were found to disconnect.")
      ∉ (disconnect_all_loop home pk ps).1 := by
  induction ps with
  | nil => simp [disconnect_all_loop]
  | cons p rest ih =>
    by_cases hr : pk (killPattern home p) == 0
    · intro hmem
      simp [disconnect_all_loop, _disconnect_single_proxy, hr] at hmem
      rcases hmem with h | h
      · exact disconnected_msg_ne p.name p.host p.port h.symm
      · exact ih h
    · intro hmem
      simp [disconnect_all_loop, _disconnect_single_proxy, hr] at hmem
      exact ih hmem

/-- C8: `disconnect all` loads every configured proxy, performs exactly one
kill-attempt per configured proxy in configuration order, completes without
error, and prints the no-active message exactly when every kill-attempt
reported failure. -/
theorem C8_disconnect_all (cfg home : String) (pk : String → Int)
    (entries : List (String × ProxyData)) :
    (proxy_disconnect cfg home pk (ConfigSource.ok entries) ("all")).2 = none
    ∧ (proxy_disconnect cfg home pk (ConfigSource.ok entries) ("all")).1.filter isPkillCall
        = (build_proxies entries).map (fun p => Event.pkillCall (killPattern home p))
    ∧ (Event.printLine ("No active proxies were found to disconnect.")
          ∈ (proxy_disconnect cfg home pk (ConfigSource.ok entries) ("all")).1
        ↔ ∀ p ∈ build_proxies entries, pk (killPattern home p) ≠ 0) := by
  by_cases hA : (disconnect_all_loop home pk (build_proxies entries)).2
  · have hres : proxy_disconnect cfg home pk (ConfigSource.ok entries) ("all")
        = (Event.printLine ("Disconnecting from all configured proxies.")
            :: (disconnect_all_loop home pk (build_proxies entries)).1, none) := by
      simp [proxy_disconnect, parse_proxy_config, hA]
    rw [hres]
    refine ⟨rfl, ?_, ?_⟩
    · simp [isPkillCall, disconnect_all_loop_filter]
    · constructor
      · intro hmem
        rcases List.mem_cons.mp hmem with h | h
        · exact absurd h (by decide)
        · exact absurd h (disconnect_all_loop_no_noactive home pk _)
      · intro hall
        rw [disconnect_all_loop_snd] at hA
        rcases List.any_eq_true.mp hA with ⟨p, hp, hrun⟩
        exact absurd (by simpa using hrun) (hall p hp)
  · have hA2 : (disconnect_all_loop home pk (build_proxies entries)).2 = false :=
      Bool.eq_false_iff.mpr hA
    have hres : proxy_disconnect cfg home pk (ConfigSource.ok entries) ("all")
        = (Event.printLine ("Disconnecting from all configured proxies.")
            :: (disconnect_all_loop home pk (build_proxies entries)).1
            ++ [Event.printLine ("No active proxies were found to disconnect.")], none) := by
      simp [proxy_disconnect, parse_proxy_config, hA2]
    rw [hres]
    refine ⟨rfl, ?_, ?_⟩
    · simp [List.filter_append, isPkillCall, disconnect_all_loop_filter]
    · have hnone : ∀ p ∈ build_proxies entries, pk (killPattern home p) ≠ 0 := by
        rw [disconnect_all_loop_snd] at hA2
        intro p hp hzero
        have : (build_proxies entries).any (fun p => pk (killPattern home p) == 0) = true :=
          List.any_eq_true.mpr ⟨p, hp, by simpa using hzero⟩
        rw [hA2] at this
        exact Bool.false_ne_true this
      constructor
      · intro _
        exact hnone
      · intro _
        exact List.mem_cons_of_mem _
          (List.mem_append_right _ (List.mem_singleton.mpr rfl))

/-- The names of the built records are the configuration file's top-level
keys, in order. -/
lemma build_proxies_map_name (entries : List (String × ProxyData)) :
    (build_proxies entries).map Proxy.name = entries.map Prod.fst := by
  simp [build_proxies]

/-- With unique keys, the linear scan finds exactly the record with the
queried name. -/
lemma search_unique (entries : List (String × ProxyData)) (query : String)
    (hnd : (entries.map Prod.fst).Nodup) (r : Proxy) :
    proxy_search_list (build_proxies entries) query = some r
      ↔ r ∈ build_proxies entries ∧ r.name = query := by
  constructor
  · intro h
    refine ⟨List.mem_of_find?_eq_some h, ?_⟩
    have := List.find?_some h
    simpa using this
  · rintro ⟨hmem, hname⟩
    induction entries with
    | nil => simp [build_proxies] at hmem
    | cons e rest ih =>
      have hcons : build_proxies (e :: rest)
          = (Proxy.mk e.1 (e.2.host.getD ("--")) (e.2.port.getD ("--"))
              (e.2.identity_file.getD (""))) :: build_proxies rest := rfl
      rw [hcons] at hmem ⊢
      rcases List.mem_cons.mp hmem with heq | htail
      · have hp : ((Proxy.mk e.1 (e.2.host.getD ("--")) (e.2.port.getD ("--"))
            (e.2.identity_file.getD (""))).name == query) = true := by
          rw [← heq]
          simp [hname]
        rw [heq, proxy_search_list, List.find?_cons, hp]
      · have hkey : e.1 ≠ query := by
          intro hkq
          have hmemname : r.name ∈ (build_proxies rest).map Proxy.name :=
            List.mem_map_of_mem Proxy.name htail
          rw [build_proxies_map_name, hname, ← hkq] at hmemname
          rw [List.map_cons] at hnd
          exact (List.nodup_cons.mp hnd).1 hmemname
        have hp : ((Proxy.mk e.1 (e.2.host.getD ("--")) (e.2.port.getD ("--"))
            (e.2.identity_file.getD (""))).name == query) = false := by
          simp [hkey]
        rw [proxy_search_list, List.find?_cons, hp]
        have hnd2 : (rest.map Prod.fst).Nodup := by
          rw [List.map_cons] at hnd
          exact (List.nodup_cons.mp hnd).2
        exact ih hnd2 htail

/-- When no key matches, the linear scan returns none. -/
lemma search_none (entries : List (String × ProxyData)) (query : String)
    (habs : ∀ e ∈ entries, e.1 ≠ query) :
    proxy_search_list (build_proxies entries) query = none := by
  rw [proxy_search_list, List.find?_eq_none]
  intro a ha
  rcases List.mem_map.mp ha with ⟨e, he, rfl⟩
  simp [habs e he]

/-- C9: on a valid configuration with N uniquely-named entries, loading
yields exactly N records in key order, each record named by its key with the
documented defaults for missing fields, and lookup by name returns exactly
the unique matching record, or none when no key matches. -/
theorem C9_parse_and_search (entries : List (String × ProxyData)) (query : String) :
    parse_proxy_config (ConfigSource.ok entries) = Except.ok (build_proxies entries)
    ∧ (build_proxies entries).length = entries.length
    ∧ (∀ i (hi : i < entries.length) (hp : i < (build_proxies entries).length),
        ((build_proxies entries).get ⟨i, hp⟩).name = (entries.get ⟨i, hi⟩).1
        ∧ ((build_proxies entries).get ⟨i, hp⟩).host
            = (entries.get ⟨i, hi⟩).2.host.getD ("--")
        ∧ ((build_proxies entries).get ⟨i, hp⟩).port
            = (entries.get ⟨i, hi⟩).2.port.getD ("--")
        ∧ ((build_proxies entries).get ⟨i, hp⟩).identity_file
            = (entries.get ⟨i, hi⟩).2.identity_file.getD (""))
    ∧ ((entries.map Prod.fst).Nodup →
        ∀ r : Proxy, proxy_search_list (build_proxies entries) query = some r
          ↔ r ∈ build_proxies entries ∧ r.name = query)
    ∧ ((∀ e ∈ entries, e.1 ≠ query) →
        proxy_search_list (build_proxies entries) query = none) := by
  refine ⟨rfl, by simp [build_proxies], ?_, ?_, search_none entries query⟩
  · intro i hi hp
    simp [build_proxies]
  · intro hnd r
    exact search_unique entries query hnd r

/-- Witness for C9 on the two-entry sample configuration of the repository's
tests: unique keys, lookup of proxy1 returns its record. -/
theorem C9_parse_and_search_witness :
    proxy_search_list
        (build_proxies
          [(("proxy1"), ProxyData.mk (some ("172.31.0.51")) (some ("9051")) (some ("~/.ssh/private_key"))),
           (("proxy2"), ProxyData.mk (some ("172.31.0.52")) (some ("9052")) none)])
        ("proxy1")
      = some (Proxy.mk ("proxy1") ("172.31.0.51") ("9051") ("~/.ssh/private_key")) :=
  ((C9_parse_and_search
      [(("proxy1"), ProxyData.mk (some ("172.31.0.51")) (some ("9051")) (some ("~/.ssh/private_key"))),
       (("proxy2"), ProxyData.mk (some ("172.31.0.52")) (some ("9052")) none)]
      ("proxy1")).2.2.2.1 (by decide)
    (Proxy.mk ("proxy1") ("172.31.0.51") ("9051") ("~/.ssh/private_key"))).mpr
    (by decide)

/-- C10: disconnect of a single named proxy that exists but has no matching
running process performs the kill-attempt, discards its boolean result,
prints nothing at all, and completes without error. -/
theorem C10_disconnect_named_silent (cfg home : String) (pk : String → Int)
    (entries : List (String × ProxyData)) (name : String) (p : Proxy)
    (hname : name ≠ "all")
    (hfind : proxy_search_list (build_proxies entries) name = some p)
    (hfail : pk (killPattern home p) ≠ 0) :
    proxy_disconnect cfg home pk (ConfigSource.ok entries) name
      = ([Event.pkillCall (killPattern home p)], none)
    ∧ ∀ s, Event.printLine s
        ∉ (proxy_disconnect cfg home pk (ConfigSource.ok entries) name).1 := by
  have hb : (name == "all") = false := by simp [hname]
  have hr : (pk (killPattern home p) == 0) = false := by simp [hfail]
  have hres : proxy_disconnect cfg home pk (ConfigSource.ok entries) name
      = ([Event.pkillCall (killPattern home p)], none) := by
    simp [proxy_disconnect, hb, _proxy_search, parse_proxy_config, hfind,
      _disconnect_single_proxy, hr]
  refine ⟨hres, ?_⟩
  intro s hmem
  rw [hres] at hmem
  simp at hmem

/-- Witness for C10 at a concrete configuration, name and process table. -/
theorem C10_disconnect_named_silent_witness :
    proxy_disconnect ("proxy-config.yml") ("/home/op") (fun _ => 1)
        (ConfigSource.ok [(("proxy1"), ProxyData.mk (some ("h1")) (some ("9051")) (some ("key1")))])
        ("proxy1")
      = ([Event.pkillCall ("ssh -D 9051 -N h1 -q -C -f -i key1")], none) :=
  (C10_disconnect_named_silent ("proxy-config.yml") ("/home/op") (fun _ => 1)
      [(("proxy1"), ProxyData.mk (some ("h1")) (some ("9051")) (some ("key1")))]
      ("proxy1") (Proxy.mk ("proxy1") ("h1") ("9051") ("key1"))
      (by decide) rfl (by decide)).1

end Socksies
